import Mathlib

/-!
Shallow embedding of `src/lambda_function.py`, a Lambda handler that starts or
stops EC2 instances carrying a configured tag.  Provider interaction is
modelled by an `EC2Client` record of fallible functions; every provider call
made during an invocation is recorded in a trace (`List Call`), every `print`
in a log (`List String`), and a Python exception escaping the `try` block is
the `Option String` component threaded out of `try_block`.
-/

namespace EC2Scheduler

/-- One element of the `Filters` argument of `describe_instances`. -/
structure Filter where
  name : String
  values : List String
  deriving Repr, DecidableEq

/-- A provider API call, as recorder entry: the args of `describe_instances`,
`start_instances` or `stop_instances`. -/
inductive Call where
  | describeInstances (filters : List Filter)
  | startInstances (instanceIds : List String)
  | stopInstances (instanceIds : List String)
  deriving Repr, DecidableEq

/-- One instance record of a `describe_instances` response. -/
structure Instance where
  instanceId : String
  deriving Repr, DecidableEq

/-- One reservation of a `describe_instances` response. -/
structure Reservation where
  instances : List Instance
  deriving Repr, DecidableEq

/-- A `describe_instances` response: its list of reservations. -/
structure Response where
  reservations : List Reservation
  deriving Repr, DecidableEq

/-- The dynamically typed value returned by `get_list_of_servers_with_tag`:
either the string `"Invalid Operation"` or a list of instance ids. -/
inductive ServersResult where
  | invalidOp (s : String)
  | ids (l : List String)
  deriving Repr, DecidableEq

/-- Python `len` applied to the dynamic value: string length or list length. -/
def pyLen : ServersResult → Nat
  | .invalidOp s => s.length
  | .ids l => l.length

/-- The provider client (`boto3.client('ec2')`): each method may raise,
modelled as `Except String`. -/
structure EC2Client where
  describeInstances : List Filter → Except String Response
  startInstances : List String → Except String Unit
  stopInstances : List String → Except String Unit

/-- The id-collection loop of `get_list_of_servers_with_tag` (lines 36-40):
guarded by `len(response['Reservations']) > 0`, then appends every
`InstanceId` of every reservation to `server_ids`, in response order. -/
def collectServerIds (response : Response) : List String :=
  if response.reservations.length > 0 then
    response.reservations.foldl
      (fun acc server =>
        server.instances.foldl (fun acc2 ec2count => acc2 ++ [ec2count.instanceId]) acc)
      []
  else []

/-- `get_list_of_servers_with_tag(EC2TAG_KEY, EC2TAG_VALUE, EC2_ACTION)`:
picks the target state for the action (or returns the string
`"Invalid Operation"` without querying), issues one `describe_instances`
call with the tag filter and the state filter, and collects the ids.
Result: the returned value (or the exception raised by the query), paired
with the trace of provider calls made. -/
def get_list_of_servers_with_tag (ec2 : EC2Client)
    (EC2TAG_KEY EC2TAG_VALUE EC2_ACTION : String) :
    Except String ServersResult × List Call :=
  let stateValues? : Option (List String) :=
    if EC2_ACTION == "stop" then some ["running"]
    else if EC2_ACTION == "start" then some ["stopped"]
    else none
  match stateValues? with
  | none => (.ok (.invalidOp "Invalid Operation"), [])
  | some instance_state_values =>
    let filters : List Filter :=
      [⟨"tag:" ++ EC2TAG_KEY, [EC2TAG_VALUE]⟩,
       ⟨"instance-state-name", instance_state_values⟩]
    match ec2.describeInstances filters with
    | .error e => (.error e, [.describeInstances filters])
    | .ok response =>
        (.ok (.ids (collectServerIds response)), [.describeInstances filters])

/-- The incoming event: presence/value of its `"operation"` key, plus any
other fields (which the handler never reads). -/
structure Event where
  operation? : Option String
  otherFields : List (String × String)
  deriving Repr, DecidableEq

/-- The Lambda context argument (never read by the handler). -/
structure Context where
  functionName : String
  deriving Repr, DecidableEq

/-- Python `repr` of a string as `str` renders it inside a list. -/
def pyRepr (s : String) : String := "\x27" ++ s ++ "\x27"

/-- Python `str` of a list of strings. -/
def pyStrList (l : List String) : String :=
  "[" ++ String.intercalate ", " (l.map pyRepr) ++ "]"

/-- The body of the `try` block of `lambda_handler` (lines 48-62).
Result: provider calls made, log lines printed, and the exception (if any)
escaping the block to the `except` clause. -/
def try_block (ec2 : EC2Client) (EC2TAG_KEY EC2TAG_VALUE : String)
    (event : Event) : List Call × List String × Option String :=
  match event.operation? with
  | some operation =>
    match get_list_of_servers_with_tag ec2 EC2TAG_KEY EC2TAG_VALUE operation with
    | (.error e, calls) => (calls, [], some e)
    | (.ok server_ids, calls) =>
      if pyLen server_ids > 0 then
        if operation == "start" then
          match server_ids with
          | .ids l =>
            match ec2.startInstances l with
            | .error e =>
              (calls ++ [.startInstances l],
               ["Servers to " ++ operation ++ ": " ++ pyStrList l], some e)
            | .ok _ =>
              (calls ++ [.startInstances l],
               ["Servers to " ++ operation ++ ": " ++ pyStrList l], none)
          | .invalidOp s =>
            -- Unreachable from the source: the sentinel string is produced
            -- only when the operation is neither "start" nor "stop".  The
            -- client rejects a non-list argument before sending any request,
            -- which surfaces as an exception.
            (calls, ["Servers to " ++ operation ++ ": " ++ s],
             some "ParamValidationError")
        else if operation == "stop" then
          match server_ids with
          | .ids l =>
            match ec2.stopInstances l with
            | .error e =>
              (calls ++ [.stopInstances l],
               ["Servers to " ++ operation ++ ": " ++ pyStrList l], some e)
            | .ok _ =>
              (calls ++ [.stopInstances l],
               ["Servers to " ++ operation ++ ": " ++ pyStrList l], none)
          | .invalidOp s =>
            -- Unreachable, as in the "start" branch above.
            (calls, ["Servers to " ++ operation ++ ": " ++ s],
             some "ParamValidationError")
        else
          (calls, ["Invalid Operation!"], none)
      else
        (calls, ["No Servers to " ++ operation], none)
  | none => ([], ["No operation detected!"], none)

/-- `lambda_handler(event, context)` (lines 46-67): runs the `try` block,
turns an escaping exception into the `except` clause diagnostic, and always
returns `"Function Executed!"`.  Result: the return value, the trace of
provider calls, and the log lines in print order. -/
def lambda_handler (ec2 : EC2Client) (EC2TAG_KEY EC2TAG_VALUE : String)
    (event : Event) (context : Context) :
    String × List Call × List String :=
  match try_block ec2 EC2TAG_KEY EC2TAG_VALUE event with
  | (calls, logs, some error) =>
    ("Function Executed!", calls, logs ++ ["Error occuried! Error Message: " ++ error])
  | (calls, logs, none) => ("Function Executed!", calls, logs)

/-- The exact two-filter list the resolver builds for operation "stop". -/
def stopFilters (k v : String) : List Filter :=
  [⟨"tag:" ++ k, [v]⟩, ⟨"instance-state-name", ["running"]⟩]

/-- The exact two-filter list the resolver builds for operation "start". -/
def startFilters (k v : String) : List Filter :=
  [⟨"tag:" ++ k, [v]⟩, ⟨"instance-state-name", ["stopped"]⟩]

/-- Whether a recorded call is a listing query. -/
def Call.isQuery : Call → Bool
  | .describeInstances _ => true
  | _ => false

/-- Whether a recorded call is a bulk start or stop. -/
def Call.isAction : Call → Bool
  | .startInstances _ => true
  | .stopInstances _ => true
  | _ => false

/-- Whether a recorded call is a bulk start. -/
def Call.isStart : Call → Bool
  | .startInstances _ => true
  | _ => false

/-- Whether a recorded call is a bulk stop. -/
def Call.isStop : Call → Bool
  | .stopInstances _ => true
  | _ => false

/-! ### Helper lemmas -/

/-- The resolver, evaluated at operation "stop". -/
theorem get_list_stop (ec2 : EC2Client) (k v : String) :
    get_list_of_servers_with_tag ec2 k v "stop" =
      (match ec2.describeInstances (stopFilters k v) with
       | .error e => (.error e, [.describeInstances (stopFilters k v)])
       | .ok response =>
           (.ok (.ids (collectServerIds response)),
            [.describeInstances (stopFilters k v)])) := by
  rfl

/-- The resolver, evaluated at operation "start". -/
theorem get_list_start (ec2 : EC2Client) (k v : String) :
    get_list_of_servers_with_tag ec2 k v "start" =
      (match ec2.describeInstances (startFilters k v) with
       | .error e => (.error e, [.describeInstances (startFilters k v)])
       | .ok response =>
           (.ok (.ids (collectServerIds response)),
            [.describeInstances (startFilters k v)])) := by
  rfl

/-- The resolver, evaluated at any other operation: the sentinel string, no
provider call. -/
theorem get_list_other (ec2 : EC2Client) (k v a : String)
    (h1 : a ≠ "start") (h2 : a ≠ "stop") :
    get_list_of_servers_with_tag ec2 k v a =
      (.ok (.invalidOp "Invalid Operation"), []) := by
  unfold get_list_of_servers_with_tag
  simp [h1, h2]

/-- The resolver's trace never contains a bulk action. -/
theorem get_list_trace_no_action (ec2 : EC2Client) (k v a : String) :
    ((get_list_of_servers_with_tag ec2 k v a).2).filter Call.isAction = [] := by
  unfold get_list_of_servers_with_tag
  dsimp only
  split
  · rfl
  · split <;> simp [Call.isAction]

/-- Folding the inner id-append loop over an accumulator. -/
theorem foldl_instances (l : List Instance) (acc : List String) :
    l.foldl (fun acc2 ec2count => acc2 ++ [ec2count.instanceId]) acc =
      acc ++ l.map Instance.instanceId := by
  induction l generalizing acc with
  | nil => simp
  | cons x xs ih => simp [ih]

/-- Folding the outer reservation loop over an accumulator. -/
theorem foldl_reservations (rs : List Reservation) (acc : List String) :
    rs.foldl
        (fun acc server =>
          server.instances.foldl
            (fun acc2 ec2count => acc2 ++ [ec2count.instanceId]) acc)
        acc =
      acc ++ (rs.map (fun r => r.instances.map Instance.instanceId)).flatten := by
  induction rs generalizing acc with
  | nil => simp
  | cons r rs ih =>
    rw [List.foldl_cons, ih, foldl_instances]
    simp

/-- The collection loop flattens the response in order. -/
theorem collectServerIds_eq_join (response : Response) :
    collectServerIds response =
      (response.reservations.map (fun r => r.instances.map Instance.instanceId)).flatten := by
  unfold collectServerIds
  split
  · simpa using foldl_reservations response.reservations []
  · rename_i h
    have : response.reservations = [] := by
      cases hr : response.reservations with
      | nil => rfl
      | cons x xs => rw [hr] at h; simp at h
    simp [this]

/-- Exhaustive case analysis of the resolver's result/trace pair. -/
theorem get_list_cases (ec2 : EC2Client) (k v a : String) :
    get_list_of_servers_with_tag ec2 k v a =
      (.ok (.invalidOp "Invalid Operation"), []) ∨
    (∃ e f, get_list_of_servers_with_tag ec2 k v a =
      (.error e, [Call.describeInstances f])) ∨
    (∃ l f, get_list_of_servers_with_tag ec2 k v a =
      (.ok (.ids l), [Call.describeInstances f])) := by
  unfold get_list_of_servers_with_tag
  dsimp only
  split
  · exact Or.inl rfl
  · split
    · exact Or.inr (Or.inl ⟨_, _, rfl⟩)
    · exact Or.inr (Or.inr ⟨_, _, rfl⟩)

/-- The handler's call trace is exactly the trace of its `try` block, and its
return value is always the fixed string. -/
theorem lambda_handler_split (ec2 : EC2Client) (k v : String) (ev : Event)
    (ctx : Context) :
    (lambda_handler ec2 k v ev ctx).1 = "Function Executed!" ∧
    (lambda_handler ec2 k v ev ctx).2.1 = (try_block ec2 k v ev).1 := by
  unfold lambda_handler
  split <;> rename_i heq <;> rw [heq] <;> exact ⟨rfl, rfl⟩

/-- The `try` block under a successful "stop" query: one query with the two
stop filters, then a bulk stop with the collected ids exactly when there is
at least one. -/
theorem try_block_stop_ok (ec2 : EC2Client) (k v : String) (ev : Event)
    (resp : Response)
    (hop : ev.operation? = some "stop")
    (hq : ec2.describeInstances (stopFilters k v) = .ok resp) :
    (try_block ec2 k v ev).1 =
      Call.describeInstances (stopFilters k v) ::
        (if (collectServerIds resp).length > 0
         then [Call.stopInstances (collectServerIds resp)] else []) := by
  unfold try_block
  rw [hop]
  dsimp only
  rw [get_list_stop, hq]
  dsimp only [pyLen]
  by_cases h : (collectServerIds resp).length > 0
  · simp only [h, if_pos h]
    cases ec2.stopInstances (collectServerIds resp) <;> simp
  · simp [h]

/-- The `try` block under a successful "start" query: one query with the two
start filters, then a bulk start with the collected ids exactly when there is
at least one. -/
theorem try_block_start_ok (ec2 : EC2Client) (k v : String) (ev : Event)
    (resp : Response)
    (hop : ev.operation? = some "start")
    (hq : ec2.describeInstances (startFilters k v) = .ok resp) :
    (try_block ec2 k v ev).1 =
      Call.describeInstances (startFilters k v) ::
        (if (collectServerIds resp).length > 0
         then [Call.startInstances (collectServerIds resp)] else []) := by
  unfold try_block
  rw [hop]
  dsimp only
  rw [get_list_start, hq]
  dsimp only [pyLen]
  by_cases h : (collectServerIds resp).length > 0
  · simp only [h, if_pos h]
    cases ec2.startInstances (collectServerIds resp) <;> simp
  · simp [h]

/-- The `try` block with an operation other than "start"/"stop": no provider
call, one diagnostic, no exception. -/
theorem try_block_invalid (ec2 : EC2Client) (k v : String) (ev : Event)
    (op : String) (hop : ev.operation? = some op)
    (h1 : op ≠ "start") (h2 : op ≠ "stop") :
    try_block ec2 k v ev = ([], ["Invalid Operation!"], none) := by
  unfold try_block
  rw [hop]
  dsimp only
  rw [get_list_other ec2 k v op h1 h2]
  dsimp only
  have hlen : pyLen (ServersResult.invalidOp "Invalid Operation") > 0 := by decide
  have hs1 : ¬((op == "start") = true) := by simp [h1]
  have hs2 : ¬((op == "stop") = true) := by simp [h2]
  rw [if_pos hlen, if_neg hs1, if_neg hs2]

/-- The `try` block with no "operation" key: no provider call, one
diagnostic, no exception. -/
theorem try_block_none (ec2 : EC2Client) (k v : String) (ev : Event)
    (hop : ev.operation? = none) :
    try_block ec2 k v ev = ([], ["No operation detected!"], none) := by
  unfold try_block
  rw [hop]

/-- The `try` block when the resolver returns an empty id list: the trace is
the resolver's own, one diagnostic, no exception. -/
theorem try_block_empty (ec2 : EC2Client) (k v : String) (ev : Event)
    (op : String) (hop : ev.operation? = some op)
    (hres : (get_list_of_servers_with_tag ec2 k v op).1 =
      Except.ok (ServersResult.ids [])) :
    try_block ec2 k v ev =
      ((get_list_of_servers_with_tag ec2 k v op).2,
       ["No Servers to " ++ op], none) := by
  rcases hgl : get_list_of_servers_with_tag ec2 k v op with ⟨r, calls⟩
  rw [hgl] at hres
  dsimp only at hres
  subst hres
  unfold try_block
  rw [hop]
  dsimp only
  rw [hgl]
  simp [pyLen]

/-- Every possible call trace of the `try` block: empty, one query, or one
query followed by one bulk action. -/
theorem try_block_trace_shape (ec2 : EC2Client) (k v : String) (ev : Event) :
    (try_block ec2 k v ev).1 = [] ∨
    (∃ f, (try_block ec2 k v ev).1 = [Call.describeInstances f]) ∨
    (∃ f l, (try_block ec2 k v ev).1 =
      [Call.describeInstances f, Call.startInstances l]) ∨
    (∃ f l, (try_block ec2 k v ev).1 =
      [Call.describeInstances f, Call.stopInstances l]) := by
  unfold try_block
  cases hop : ev.operation? with
  | none => exact Or.inl rfl
  | some op =>
    dsimp only
    rcases get_list_cases ec2 k v op with hgl | ⟨e, f, hgl⟩ | ⟨l, f, hgl⟩
    · rw [hgl]
      dsimp only
      refine Or.inl ?_
      split
      · split
        · rfl
        · split
          · rfl
          · rfl
      · rfl
    · rw [hgl]
      exact Or.inr (Or.inl ⟨f, rfl⟩)
    · rw [hgl]
      dsimp only
      by_cases hlen : pyLen (ServersResult.ids l) > 0
      · rw [if_pos hlen]
        by_cases hst : (op == "start") = true
        · rw [if_pos hst]
          cases hsi : ec2.startInstances l
          · exact Or.inr (Or.inr (Or.inl ⟨f, l, rfl⟩))
          · exact Or.inr (Or.inr (Or.inl ⟨f, l, rfl⟩))
        · rw [if_neg hst]
          by_cases hsp : (op == "stop") = true
          · rw [if_pos hsp]
            cases hsi : ec2.stopInstances l
            · exact Or.inr (Or.inr (Or.inr ⟨f, l, rfl⟩))
            · exact Or.inr (Or.inr (Or.inr ⟨f, l, rfl⟩))
          · rw [if_neg hsp]
            exact Or.inr (Or.inl ⟨f, rfl⟩)
      · rw [if_neg hlen]
        exact Or.inr (Or.inl ⟨f, rfl⟩)

/-! ### Concrete fixtures used by the witnesses -/

/-- A fixed provider response with two tagged instances in two reservations. -/
def sampleResponse : Response := ⟨[⟨[⟨"i-1"⟩]⟩, ⟨[⟨"i-2"⟩]⟩]⟩

/-- A client answering every query with `sampleResponse` and succeeding on
every bulk action. -/
def sampleClient : EC2Client where
  describeInstances := fun _ => .ok sampleResponse
  startInstances := fun _ => .ok ()
  stopInstances := fun _ => .ok ()

/-- A response with unsorted, duplicated ids across reservations. -/
def dupResponse : Response := ⟨[⟨[⟨"i-2"⟩]⟩, ⟨[⟨"i-1"⟩, ⟨"i-2"⟩]⟩]⟩

/-- A client answering every query with `dupResponse`. -/
def dupClient : EC2Client where
  describeInstances := fun _ => .ok dupResponse
  startInstances := fun _ => .ok ()
  stopInstances := fun _ => .ok ()

/-- A client whose listing query finds no reservations. -/
def emptyClient : EC2Client where
  describeInstances := fun _ => .ok ⟨[]⟩
  startInstances := fun _ => .ok ()
  stopInstances := fun _ => .ok ()

/-! ### Claim theorems -/

/-- C1: for an event whose operation is "stop", the resolver queries the
provider with exactly the two filters (the configured tag key/value and
instance-state-name "running"), and the bulk stop is issued with exactly the
ids returned by that query — every instance id of every reservation of the
response, in order, and no others (and no stop call when there are none). -/
theorem C1_stop_dispatch_exact (ec2 : EC2Client) (k v : String) (ev : Event)
    (ctx : Context) (resp : Response)
    (hop : ev.operation? = some "stop")
    (hq : ec2.describeInstances (stopFilters k v) = .ok resp) :
    (lambda_handler ec2 k v ev ctx).2.1 =
      Call.describeInstances (stopFilters k v) ::
        (if (collectServerIds resp).length > 0
         then [Call.stopInstances (collectServerIds resp)] else []) ∧
    collectServerIds resp =
      (resp.reservations.map (fun r => r.instances.map Instance.instanceId)).flatten := by
  refine ⟨?_, collectServerIds_eq_join resp⟩
  rw [(lambda_handler_split ec2 k v ev ctx).2]
  exact try_block_stop_ok ec2 k v ev resp hop hq

/-- Witness for C1: a concrete client with two running tagged instances. -/
theorem C1_stop_dispatch_exact_witness :
    (lambda_handler sampleClient "Environment" "Dev"
        ⟨some "stop", []⟩ ⟨"scheduler"⟩).2.1 =
      [Call.describeInstances (stopFilters "Environment" "Dev"),
       Call.stopInstances ["i-1", "i-2"]] := by
  have h := C1_stop_dispatch_exact sampleClient "Environment" "Dev"
    ⟨some "stop", []⟩ ⟨"scheduler"⟩ sampleResponse rfl rfl
  rw [h.1]
  decide

/-- C2: for an event whose operation is "start", the resolver queries the
provider with the configured tag filter and instance-state-name "stopped",
and the bulk start is issued with exactly the ids returned by that query. -/
theorem C2_start_dispatch_exact (ec2 : EC2Client) (k v : String) (ev : Event)
    (ctx : Context) (resp : Response)
    (hop : ev.operation? = some "start")
    (hq : ec2.describeInstances (startFilters k v) = .ok resp) :
    (lambda_handler ec2 k v ev ctx).2.1 =
      Call.describeInstances (startFilters k v) ::
        (if (collectServerIds resp).length > 0
         then [Call.startInstances (collectServerIds resp)] else []) ∧
    collectServerIds resp =
      (resp.reservations.map (fun r => r.instances.map Instance.instanceId)).flatten := by
  refine ⟨?_, collectServerIds_eq_join resp⟩
  rw [(lambda_handler_split ec2 k v ev ctx).2]
  exact try_block_start_ok ec2 k v ev resp hop hq

/-- Witness for C2: a concrete client with two stopped tagged instances. -/
theorem C2_start_dispatch_exact_witness :
    (lambda_handler sampleClient "Environment" "Dev"
        ⟨some "start", []⟩ ⟨"scheduler"⟩).2.1 =
      [Call.describeInstances (startFilters "Environment" "Dev"),
       Call.startInstances ["i-1", "i-2"]] := by
  have h := C2_start_dispatch_exact sampleClient "Environment" "Dev"
    ⟨some "start", []⟩ ⟨"scheduler"⟩ sampleResponse rfl rfl
  rw [h.1]
  decide

/-- C3: for every invocation and every outcome the handler returns the fixed
string "Function Executed!" and never propagates an exception: the final log
is the `try` block's log, followed by exactly the catch-clause diagnostic
when an exception escaped the block, and nothing else. -/
theorem C3_always_fixed_return (ec2 : EC2Client) (k v : String) (ev : Event)
    (ctx : Context) :
    (lambda_handler ec2 k v ev ctx).1 = "Function Executed!" ∧
    (lambda_handler ec2 k v ev ctx).2.2 =
      (try_block ec2 k v ev).2.1 ++
        ((try_block ec2 k v ev).2.2).elim []
          (fun e => ["Error occuried! Error Message: " ++ e]) := by
  unfold lambda_handler
  split <;> rename_i heq <;> rw [heq] <;> exact ⟨rfl, by simp⟩

/-- C4: an operation that is neither "start" nor "stop" causes no provider
call at all: neither a listing query nor a bulk action. -/
theorem C4_invalid_operation_no_calls (ec2 : EC2Client) (k v : String)
    (ev : Event) (ctx : Context) (op : String)
    (hop : ev.operation? = some op) (h1 : op ≠ "start") (h2 : op ≠ "stop") :
    (lambda_handler ec2 k v ev ctx).2.1 = [] := by
  rw [(lambda_handler_split ec2 k v ev ctx).2,
      try_block_invalid ec2 k v ev op hop h1 h2]

/-- Witness for C4: operation "reboot" makes no provider call. -/
theorem C4_invalid_operation_no_calls_witness :
    (lambda_handler sampleClient "Environment" "Dev"
        ⟨some "reboot", []⟩ ⟨"scheduler"⟩).2.1 = [] :=
  C4_invalid_operation_no_calls sampleClient "Environment" "Dev"
    ⟨some "reboot", []⟩ ⟨"scheduler"⟩ "reboot" rfl (by decide) (by decide)

/-- C5: an event without the "operation" key causes no provider call at all,
and the outcome is only the missing-field diagnostic. -/
theorem C5_missing_operation_no_calls (ec2 : EC2Client) (k v : String)
    (ev : Event) (ctx : Context) (hop : ev.operation? = none) :
    (lambda_handler ec2 k v ev ctx).2.1 = [] ∧
    (lambda_handler ec2 k v ev ctx).2.2 = ["No operation detected!"] := by
  unfold lambda_handler
  rw [try_block_none ec2 k v ev hop]
  exact ⟨rfl, rfl⟩

/-- Witness for C5: an event with only unrelated fields. -/
theorem C5_missing_operation_no_calls_witness :
    (lambda_handler sampleClient "Environment" "Dev"
        ⟨none, [("detail", "scheduled")]⟩ ⟨"scheduler"⟩).2.1 = [] ∧
    (lambda_handler sampleClient "Environment" "Dev"
        ⟨none, [("detail", "scheduled")]⟩ ⟨"scheduler"⟩).2.2 =
      ["No operation detected!"] :=
  C5_missing_operation_no_calls sampleClient "Environment" "Dev"
    ⟨none, [("detail", "scheduled")]⟩ ⟨"scheduler"⟩ rfl

/-- C6: when the resolver returns an empty id list, no bulk start or stop
call is issued, and the outcome is only the no-servers diagnostic. -/
theorem C6_empty_resolver_no_action (ec2 : EC2Client) (k v : String)
    (ev : Event) (ctx : Context) (op : String)
    (hop : ev.operation? = some op)
    (hres : (get_list_of_servers_with_tag ec2 k v op).1 =
      Except.ok (ServersResult.ids [])) :
    ((lambda_handler ec2 k v ev ctx).2.1).filter Call.isAction = [] ∧
    (lambda_handler ec2 k v ev ctx).2.2 = ["No Servers to " ++ op] := by
  unfold lambda_handler
  rw [try_block_empty ec2 k v ev op hop hres]
  exact ⟨get_list_trace_no_action ec2 k v op, rfl⟩

/-- Witness for C6: a client finding zero matching instances. -/
theorem C6_empty_resolver_no_action_witness :
    ((lambda_handler emptyClient "Environment" "Dev"
        ⟨some "start", []⟩ ⟨"scheduler"⟩).2.1).filter Call.isAction = [] ∧
    (lambda_handler emptyClient "Environment" "Dev"
        ⟨some "start", []⟩ ⟨"scheduler"⟩).2.2 = ["No Servers to " ++ "start"] :=
  C6_empty_resolver_no_action emptyClient "Environment" "Dev"
    ⟨some "start", []⟩ ⟨"scheduler"⟩ "start" rfl rfl

/-- C7: every invocation performs at most one listing query and at most one
bulk action, and no execution issues both a start and a stop. -/
theorem C7_at_most_one_query_one_action (ec2 : EC2Client) (k v : String)
    (ev : Event) (ctx : Context) :
    (((lambda_handler ec2 k v ev ctx).2.1).filter Call.isQuery).length ≤ 1 ∧
    (((lambda_handler ec2 k v ev ctx).2.1).filter Call.isAction).length ≤ 1 ∧
    ¬(((lambda_handler ec2 k v ev ctx).2.1).any Call.isStart = true ∧
      ((lambda_handler ec2 k v ev ctx).2.1).any Call.isStop = true) := by
  rw [(lambda_handler_split ec2 k v ev ctx).2]
  rcases try_block_trace_shape ec2 k v ev with h | ⟨f, h⟩ | ⟨f, l, h⟩ | ⟨f, l, h⟩ <;>
    rw [h] <;>
    simp [Call.isQuery, Call.isAction, Call.isStart, Call.isStop, List.filter]

/-- C8: a non-start/stop operation makes the resolver return the non-empty
sentinel string "Invalid Operation"; the handler's length check is therefore
true on it, yet no provider call is made and the invalid operation is
reported. -/
theorem C8_invalid_sentinel (ec2 : EC2Client) (k v : String)
    (ev : Event) (ctx : Context) (op : String)
    (hop : ev.operation? = some op) (h1 : op ≠ "start") (h2 : op ≠ "stop") :
    (get_list_of_servers_with_tag ec2 k v op).1 =
      Except.ok (ServersResult.invalidOp "Invalid Operation") ∧
    pyLen (ServersResult.invalidOp "Invalid Operation") > 0 ∧
    (lambda_handler ec2 k v ev ctx).2.1 = [] ∧
    (lambda_handler ec2 k v ev ctx).2.2 = ["Invalid Operation!"] := by
  refine ⟨by rw [get_list_other ec2 k v op h1 h2], by decide, ?_, ?_⟩
  · rw [(lambda_handler_split ec2 k v ev ctx).2,
        try_block_invalid ec2 k v ev op hop h1 h2]
  · unfold lambda_handler
    rw [try_block_invalid ec2 k v ev op hop h1 h2]

/-- Witness for C8: operation "terminate". -/
theorem C8_invalid_sentinel_witness :
    (get_list_of_servers_with_tag sampleClient "Environment" "Dev"
        "terminate").1 =
      Except.ok (ServersResult.invalidOp "Invalid Operation") ∧
    pyLen (ServersResult.invalidOp "Invalid Operation") > 0 ∧
    (lambda_handler sampleClient "Environment" "Dev"
        ⟨some "terminate", []⟩ ⟨"scheduler"⟩).2.1 = [] ∧
    (lambda_handler sampleClient "Environment" "Dev"
        ⟨some "terminate", []⟩ ⟨"scheduler"⟩).2.2 = ["Invalid Operation!"] :=
  C8_invalid_sentinel sampleClient "Environment" "Dev"
    ⟨some "terminate", []⟩ ⟨"scheduler"⟩ "terminate" rfl (by decide) (by decide)

/-- C9: the id list handed to the bulk call — start and stop alike — is the
exact in-order flatten of the response: reservations in response order,
instances in listed order, with no deduplication, sorting or truncation. -/
theorem C9_order_preserved (ecA ecB : EC2Client) (k v : String)
    (evA evB : Event) (ctxA ctxB : Context) (respA respB : Response)
    (hopA : evA.operation? = some "start")
    (hqA : ecA.describeInstances (startFilters k v) = .ok respA)
    (hneA : (respA.reservations.map
      (fun r => r.instances.map Instance.instanceId)).flatten ≠ [])
    (hopB : evB.operation? = some "stop")
    (hqB : ecB.describeInstances (stopFilters k v) = .ok respB)
    (hneB : (respB.reservations.map
      (fun r => r.instances.map Instance.instanceId)).flatten ≠ []) :
    (lambda_handler ecA k v evA ctxA).2.1 =
      [Call.describeInstances (startFilters k v),
       Call.startInstances ((respA.reservations.map
         (fun r => r.instances.map Instance.instanceId)).flatten)] ∧
    (lambda_handler ecB k v evB ctxB).2.1 =
      [Call.describeInstances (stopFilters k v),
       Call.stopInstances ((respB.reservations.map
         (fun r => r.instances.map Instance.instanceId)).flatten)] := by
  have hlenA : 0 < ((respA.reservations.map
      (fun r => r.instances.map Instance.instanceId)).flatten).length :=
    List.length_pos.mpr hneA
  have hlenB : 0 < ((respB.reservations.map
      (fun r => r.instances.map Instance.instanceId)).flatten).length :=
    List.length_pos.mpr hneB
  constructor
  · rw [(lambda_handler_split ecA k v evA ctxA).2,
        try_block_start_ok ecA k v evA respA hopA hqA,
        collectServerIds_eq_join respA, if_pos hlenA]
  · rw [(lambda_handler_split ecB k v evB ctxB).2,
        try_block_stop_ok ecB k v evB respB hopB hqB,
        collectServerIds_eq_join respB, if_pos hlenB]

/-- Witness for C9: a response with out-of-order and duplicated ids is passed
through verbatim to the bulk start and to the bulk stop — no sorting, no
deduplication. -/
theorem C9_order_preserved_witness :
    (lambda_handler dupClient "Environment" "Dev"
        ⟨some "start", []⟩ ⟨"scheduler"⟩).2.1 =
      [Call.describeInstances (startFilters "Environment" "Dev"),
       Call.startInstances ["i-2", "i-1", "i-2"]] ∧
    (lambda_handler dupClient "Environment" "Dev"
        ⟨some "stop", []⟩ ⟨"scheduler"⟩).2.1 =
      [Call.describeInstances (stopFilters "Environment" "Dev"),
       Call.stopInstances ["i-2", "i-1", "i-2"]] := by
  have h := C9_order_preserved dupClient dupClient "Environment" "Dev"
    ⟨some "start", []⟩ ⟨some "stop", []⟩ ⟨"scheduler"⟩ ⟨"scheduler"⟩
    dupResponse dupResponse rfl rfl (by decide) rfl rfl (by decide)
  refine ⟨?_, ?_⟩
  · rw [h.1]
    decide
  · rw [h.2]
    decide

/-- C10: with the configuration and client fixed, two invocations whose
events agree on the presence/value of the "operation" field produce identical
outputs — same provider calls, same logs, same return value; no other event
field and nothing in the context argument influences the handler. -/
theorem C10_depends_only_on_operation (ec2 : EC2Client) (k v : String)
    (e1 e2 : Event) (c1 c2 : Context)
    (h : e1.operation? = e2.operation?) :
    lambda_handler ec2 k v e1 c1 = lambda_handler ec2 k v e2 c2 := by
  unfold lambda_handler try_block
  rw [h]

/-- Witness for C10: events differing in their other fields, contexts
differing entirely, same behaviour. -/
theorem C10_depends_only_on_operation_witness :
    lambda_handler sampleClient "Environment" "Dev"
        ⟨some "stop", [("source", "cron")]⟩ ⟨"ctx-a"⟩ =
      lambda_handler sampleClient "Environment" "Dev"
        ⟨some "stop", []⟩ ⟨"ctx-b"⟩ :=
  C10_depends_only_on_operation sampleClient "Environment" "Dev"
    ⟨some "stop", [("source", "cron")]⟩ ⟨some "stop", []⟩ ⟨"ctx-a"⟩ ⟨"ctx-b"⟩ rfl

end EC2Scheduler
